import Mathlib

/-
  Verification of the glacier-retreat-analysis dashboard (src/dashboard.py).

  Shallow embedding: the tolerant dataset loader `load_model_data` and the
  page renderer (the top-level if/elif dispatch of the script) are translated
  into pure Lean functions over an explicit filesystem state and an explicit
  dataset mapping.  Display side effects (st.markdown, st.metric, st.info,
  st.plotly_chart, ...) become elements of a `Block` list, emitted in source
  order.  The only statements in the script that can raise on a loaded,
  non-empty dataset are the positional column lookups `df.columns[0]` /
  `df.columns[1]` in the Sentinel-1 and Sentinel-2 branches; rendering is
  therefore modelled in `Except String`, with those lookups as the sole
  error source.
-/

namespace Glacier

/-- A parsed tabular dataset: a pandas DataFrame as produced by
`pd.read_csv` — a list of column names and a list of rows of numeric
cells (cells are modelled as rationals). -/
structure DataFrame where
  cols : List String
  rows : List (List Rat)
  deriving DecidableEq, Repr

/-- `len(df)` — the number of rows. -/
def DataFrame.len (df : DataFrame) : Nat := df.rows.length

/-- `c in df.columns`. -/
def DataFrame.hasCol (df : DataFrame) (c : String) : Bool := df.cols.contains c

/-- Index of a named column in the header. -/
def DataFrame.colIdx (df : DataFrame) (c : String) : Nat :=
  df.cols.findIdx (fun x => x == c)

/-- `df[c]` — the values of a named column, one per row. -/
def DataFrame.colValues (df : DataFrame) (c : String) : List Rat :=
  df.rows.map (fun r => r.getD (df.colIdx c) 0)

/-- `series.nunique()` — number of distinct values. -/
def nunique (xs : List Rat) : Nat := xs.dedup.length

/-- `series.mean()`. -/
def listMean (xs : List Rat) : Rat := xs.sum / (xs.length : Rat)

/-- The state of one file path on disk, as observed by the loader: the path
may be absent, present but not parseable by `pd.read_csv` (which then
raises, caught by the surrounding `except: pass`), or present and parsed
into a table. -/
inductive FileState
  | absent
  | unparseable
  | table (df : DataFrame)
  deriving DecidableEq, Repr

/-- A filesystem state: what the loader finds at each path. -/
abbrev FileSystem : Type := String → FileState

/-- Conventional path of the DEM dataset. -/
def demPath : String := "datasets/DEM/data.csv"

/-- Conventional path of the Sentinel-1 dataset. -/
def sentinel1Path : String := "models/sentinel1_data.csv"

/-- Conventional path of the Sentinel-2 dataset. -/
def sentinel2Path : String := "models/sentinel2_data.csv"

/-- The mapping returned by the loader: dataset name to table, holding only
the datasets that loaded.  Modelled as an association list. -/
abbrev DatasetMapping : Type := List (String × DataFrame)

/-- `d[k]` guarded by `k in d`. -/
def DatasetMapping.lookup (d : DatasetMapping) (k : String) : Option DataFrame :=
  List.lookup k d

/-- One `try: if path.exists(): data_dict[key] = pd.read_csv(path) except: pass`
step of the loader: an absent path is skipped by the `exists()` guard, an
unparseable file makes `read_csv` raise into the bare `except`, and only a
parsed table contributes an entry. -/
def tryLoad (fs : FileSystem) (key : String) (path : String) : DatasetMapping :=
  match fs path with
  | .table df => [(key, df)]
  | _ => []

/-- `load_model_data()` — builds the dataset mapping from the three fixed
conventional paths, each attempt isolated in its own try/except. -/
def load_model_data (fs : FileSystem) : DatasetMapping :=
  tryLoad fs "DEM" demPath ++
    tryLoad fs "Sentinel1" sentinel1Path ++
    tryLoad fs "Sentinel2" sentinel2Path

/-- Value shown by an `st.metric` call (numeric values kept unformatted). -/
inductive MetricValue
  | num (q : Rat)
  | count (n : Nat)
  | str (s : String)
  deriving DecidableEq, Repr

/-- A chart specification handed to `st.plotly_chart`. -/
inductive Chart
  /-- `go.Histogram(x=df[col], nbinsx=n)` over the values of a named column. -/
  | histogram (col : String) (xdata : List Rat) (nbins : Nat) (title : String)
  /-- `px.scatter(df, x=xcol, y=ycol, color=ccol, title=...)`. -/
  | scatter (xcol ycol : String) (ccol : Option String) (title : String)
  /-- A chart built entirely from literal in-script data, identified by title. -/
  | staticChart (title : String)
  deriving DecidableEq, Repr

/-- One display block emitted by the script, in source order: the tagged
output unit of the renderer. -/
inductive Block
  | markdown (s : String)
  | info (s : String)
  | warning (s : String)
  | metric (label : String) (value : MetricValue)
  /-- `st.metric(label, value, delta)` with a literal string value. -/
  | metricDelta (label value delta : String)
  | chart (c : Chart)
  /-- `folium_static` map: center latitude/longitude and circle radius in m. -/
  | mapBlock (lat lon radius : Rat)
  | image (src : String)
  | tableBlock (name : String)
  deriving DecidableEq, Repr

/-- Whether a block is a chart block. -/
def Block.isChart : Block → Bool
  | .chart _ => true
  | _ => false

/-- Whether a block is an informational placeholder (`st.info`). -/
def Block.isInfo : Block → Bool
  | .info _ => true
  | _ => false

/-- Number of chart blocks in a block sequence. -/
def countCharts (bs : List Block) : Nat := (bs.filter Block.isChart).length

/-- Number of `st.info` placeholder blocks in a block sequence. -/
def countInfos (bs : List Block) : Nat := (bs.filter Block.isInfo).length

/-- The sub-view selector of the Data Analysis page: the four options of the
`st.selectbox`.  The script dispatches by substring containment
(`"DEM" in modality`, `"Sentinel-1" in modality`, ...), which on the four
selectable strings coincides with this enumeration. -/
inductive Modality
  | dem
  | sentinel1
  | sentinel2
  | landsat8
  deriving DecidableEq, Repr

/-- `df.columns[i]` — positional column access, raising IndexError when the
index is out of bounds (the raise aborts the Streamlit script run). -/
def colAt (df : DataFrame) (i : Nat) : Except String String :=
  match df.cols[i]? with
  | some c => .ok c
  | none => .error "IndexError: index out of bounds for df.columns"

/-- The DEM branch of the Data Analysis page (dashboard.py lines 321-375):
static prose, then a histogram of `elev_change` guarded by column presence
(else a warning), the whole chart area guarded by dataset presence and
non-emptiness (else an info placeholder); then the statistics column with
row count and the independently optional class/slope metrics; then static
classification prose. -/
def demBranch (d : DatasetMapping) : List Block :=
  [Block.markdown "### Elevation Change Analysis (2000-2011)",
   Block.markdown "What we measure: elevation changes, terrain features, classification"]
  ++ (match d.lookup "DEM" with
      | some df =>
        if 0 < df.len then
          if df.hasCol "elev_change" then
            [Block.chart (.histogram "elev_change" (df.colValues "elev_change") 50
               "Elevation Change Distribution (2000-2011)")]
          else
            [Block.warning "Elevation change data not available in the dataset."]
        else [Block.info "Run DEM.ipynb notebook to generate data for visualization"]
      | none => [Block.info "Run DEM.ipynb notebook to generate data for visualization"])
  ++ [Block.markdown "### Statistics"]
  ++ (match d.lookup "DEM" with
      | some df =>
        if 0 < df.len then
          [Block.metric "Total Samples" (.count df.len)]
          ++ (if df.hasCol "class" then
                [Block.metric "Classes Identified" (.count (nunique (df.colValues "class")))]
              else [])
          ++ (if df.hasCol "slope" then
                [Block.metric "Avg Slope" (.num (listMean (df.colValues "slope")))]
              else [])
        else []
      | none => [])
  ++ [Block.markdown "### Classification",
      Block.markdown "Class 0 Major Thinning; Class 1 Moderate Thinning; Class 2 Slight Change; Class 3 Stable/Thickening"]

/-- The `px.scatter` call of the Sentinel-1 branch (dashboard.py lines
395-403): axis arguments are evaluated left to right, each falling back
positionally to `columns[0]` / `columns[1]` when `VV_1` / `VV_2` are
absent — the positional lookups are the only raising operations. -/
def sentinel1Chart (df : DataFrame) : Except String (List Block) :=
  match (if df.hasCol "VV_1" then Except.ok "VV_1" else colAt df 0) with
  | .error e => .error e
  | .ok xcol =>
    match (if df.hasCol "VV_2" then Except.ok "VV_2" else colAt df 1) with
    | .error e => .error e
    | .ok ycol =>
      .ok [Block.chart (.scatter xcol ycol
        (if df.hasCol "class" then some "class" else none)
        "Winter vs Summer Backscatter")]

/-- The Sentinel-1 branch (dashboard.py lines 377-421): static prose, then
the scatter chart area guarded by dataset presence and non-emptiness (else
an info placeholder), then the statistics column. -/
def sentinel1Branch (d : DatasetMapping) : Except String (List Block) :=
  let chartPartE :=
    match d.lookup "Sentinel1" with
    | some df =>
      if 0 < df.len then sentinel1Chart df
      else .ok [Block.info "Run Sentinel1.ipynb notebook to generate data for visualization"]
    | none => .ok [Block.info "Run Sentinel1.ipynb notebook to generate data for visualization"]
  let stats :=
    [Block.markdown "### Statistics"]
    ++ (match d.lookup "Sentinel1" with
        | some df =>
          if 0 < df.len then
            [Block.metric "Total Samples" (.count df.len)]
            ++ (if df.hasCol "class" then
                  [Block.metric "Classes" (.count (nunique (df.colValues "class")))]
                else [])
          else []
        | none => [])
    ++ [Block.markdown "### SAR Bands", Block.markdown "VV, VH, Ratio"]
  match chartPartE with
  | .error e => .error e
  | .ok chartPart =>
    .ok ([Block.markdown "### SAR Backscatter Analysis (2021)",
          Block.markdown "What we measure: radar backscatter winter vs summer, VV and VH"]
      ++ chartPart ++ stats)

/-- The `px.scatter` call of the Sentinel-2 branch (dashboard.py lines
441-449): same positional fallback shape as the Sentinel-1 scatter, with
the `NDSI_2023` / `NDVI_2023` named columns. -/
def sentinel2Chart (df : DataFrame) : Except String (List Block) :=
  match (if df.hasCol "NDSI_2023" then Except.ok "NDSI_2023" else colAt df 0) with
  | .error e => .error e
  | .ok xcol =>
    match (if df.hasCol "NDVI_2023" then Except.ok "NDVI_2023" else colAt df 1) with
    | .error e => .error e
    | .ok ycol =>
      .ok [Block.chart (.scatter xcol ycol
        (if df.hasCol "class" then some "class" else none)
        "NDVI vs NDSI (2023)")]

/-- The Sentinel-2 branch (dashboard.py lines 423-470): same shape as the
Sentinel-1 branch. -/
def sentinel2Branch (d : DatasetMapping) : Except String (List Block) :=
  let chartPartE :=
    match d.lookup "Sentinel2" with
    | some df =>
      if 0 < df.len then sentinel2Chart df
      else .ok [Block.info "Run Sentinel2.ipynb notebook to generate data for visualization"]
    | none => .ok [Block.info "Run Sentinel2.ipynb notebook to generate data for visualization"]
  let stats :=
    [Block.markdown "### Statistics"]
    ++ (match d.lookup "Sentinel2" with
        | some df =>
          if 0 < df.len then
            [Block.metric "Total Samples" (.count df.len)]
            ++ (if df.hasCol "class" then
                  [Block.metric "Classes" (.count (nunique (df.colValues "class")))]
                else [])
          else []
        | none => [])
    ++ [Block.markdown "### Indices", Block.markdown "NDSI and NDVI thresholds"]
  match chartPartE with
  | .error e => .error e
  | .ok chartPart =>
    .ok ([Block.markdown "### Optical Spectral Analysis (2018-2023)",
          Block.markdown "What we measure: NDVI, NDSI, multi-temporal changes"]
      ++ chartPart ++ stats)

/-- The Landsat-8 branch (dashboard.py lines 472-485): static prose and a
static info line; it never consults the dataset mapping. -/
def landsat8Branch : List Block :=
  [Block.markdown "### Thermal Analysis (2017-2023)",
   Block.markdown "What we measure: LST, NDSI, thermal patterns",
   Block.info "Landsat-8 analysis provides thermal insights into glacier melt patterns"]

/-- The Data Analysis page (dashboard.py lines 310-485): heading, modality
dispatch. -/
def renderDataAnalysis (m : Modality) (d : DatasetMapping) : Except String (List Block) :=
  let bodyE : Except String (List Block) :=
    match m with
    | .dem => .ok (demBranch d)
    | .sentinel1 => sentinel1Branch d
    | .sentinel2 => sentinel2Branch d
    | .landsat8 => .ok landsat8Branch
  match bodyE with
  | .error e => .error e
  | .ok body => .ok (Block.markdown "## Multi-Modal Data Analysis" :: body)

/-- The Overview page (dashboard.py lines 183-305): three static metric
cards, the fixed-location folium map (center 30.92N 79.08E, 15 km circle),
static prose, the literal data-collection timeline chart, more static
prose.  Built entirely from literals; the dataset mapping is never read. -/
def overviewBlocks : List Block :=
  [Block.markdown "## Welcome to the Gangotri Glacier Analysis Project",
   Block.markdown "23 Years Data Coverage 2000 - 2023",
   Block.markdown "4 Satellites Data Sources",
   Block.markdown "3-4 Classes Glacier Zones",
   Block.markdown "## Study Area Location",
   Block.mapBlock (1546/50) (3954/50) 15000,
   Block.markdown "## Project Goals",
   Block.markdown "Monitor, Analyze, Predict, Provide",
   Block.markdown "## Why This Matters",
   Block.markdown "Gangotri Glacier feeds the Ganges River",
   Block.markdown "## Data Sources",
   Block.chart (.staticChart "Data Collection Timeline"),
   Block.markdown "### Technology Stack",
   Block.markdown "Google Earth Engine, Machine Learning, Python"]

/-- The Satellite Imagery page (dashboard.py lines 490-573): four static
image tiles with prose, plus the literal Sankey pipeline diagram.  No
dataset dependency. -/
def satelliteImageryBlocks : List Block :=
  [Block.markdown "## Satellite Data Visualization",
   Block.markdown "Four different types of satellite data",
   Block.markdown "### Digital Elevation Model",
   Block.image "images/dem.jpg",
   Block.markdown "Purpose: measure glacier thickness change",
   Block.markdown "### Sentinel-1 SAR",
   Block.image "images/sentinel1.png",
   Block.markdown "Purpose: monitor surface roughness",
   Block.markdown "### Sentinel-2 Optical",
   Block.image "images/sentinel2.png",
   Block.markdown "Purpose: map snow cover and vegetation",
   Block.markdown "### Landsat-8 Thermal",
   Block.image "images/landsat.png",
   Block.markdown "Purpose: measure surface temperature",
   Block.markdown "## Data Processing Pipeline",
   Block.chart (.staticChart "Data Processing Pipeline")]

/-- The Machine Learning page (dashboard.py lines 578-693): literal
model-vs-dataset accuracy bar chart, static model descriptions, and three
literal feature-importance bar charts.  No dataset dependency. -/
def machineLearningBlocks : List Block :=
  [Block.markdown "## Machine Learning Models",
   Block.markdown "### Model Performance Comparison",
   Block.chart (.staticChart "Classification Accuracy by Model and Dataset"),
   Block.markdown "### Random Forest",
   Block.markdown "### Support Vector Machine",
   Block.markdown "### K-Nearest Neighbors",
   Block.markdown "### Feature Importance Analysis",
   Block.chart (.staticChart "DEM Feature Importance"),
   Block.info "Slope is the most important feature",
   Block.chart (.staticChart "Optical Feature Importance"),
   Block.info "NDSI Change is key",
   Block.chart (.staticChart "Thermal Feature Importance"),
   Block.info "Recent LST most important"]

/-- The Results and Insights page (dashboard.py lines 698-890): four literal
delta metrics, literal timeline chart, static findings, literal impact
chart, static directions.  No dataset dependency. -/
def resultsBlocks : List Block :=
  [Block.markdown "## Key Findings and Insights",
   Block.metricDelta "Elevation Change" "-5 to -15m" "2000-2011",
   Block.metricDelta "Temperature Increase" "+1-2 degC" "2017-2023",
   Block.metricDelta "Snow Cover Decline" "-15%" "2018-2023",
   Block.metricDelta "Data Points Analyzed" "3,000+" "High confidence",
   Block.markdown "### Timeline of Observed Changes",
   Block.chart (.staticChart "Key Observations Timeline (2000-2023)"),
   Block.markdown "### What We Confirmed",
   Block.markdown "### What We Discovered",
   Block.markdown "### Impact Assessment",
   Block.chart (.staticChart "Impact Assessment"),
   Block.markdown "### Future Directions",
   Block.markdown "Research, Communication, Action"]

/-- The About page (dashboard.py lines 895-979): static prose plus one
literal dataset-summary table.  No dataset dependency. -/
def aboutBlocks : List Block :=
  [Block.markdown "## About This Project",
   Block.markdown "### Project Information",
   Block.markdown "### Technology Stack",
   Block.markdown "### Dataset Summary",
   Block.tableBlock "dataset_stats",
   Block.markdown "### Resources",
   Block.markdown "### Project Files",
   Block.markdown "### Acknowledgments",
   Block.info "This project uses freely available satellite data",
   Block.markdown "### Contact"]

/-- The six page names offered by the sidebar radio. -/
def pageNames : List String :=
  ["Overview", "Data Analysis", "Satellite Imagery", "Machine Learning",
   "Results & Insights", "About"]

/-- The page dispatch (dashboard.py lines 183-895): an if/elif chain on the
selected page name with no else branch — an unknown page name emits no
page-specific blocks. -/
def renderPageBody (page : String) (m : Modality) (d : DatasetMapping) :
    Except String (List Block) :=
  if page == "Overview" then .ok overviewBlocks
  else if page == "Data Analysis" then renderDataAnalysis m d
  else if page == "Satellite Imagery" then .ok satelliteImageryBlocks
  else if page == "Machine Learning" then .ok machineLearningBlocks
  else if page == "Results & Insights" then .ok resultsBlocks
  else if page == "About" then .ok aboutBlocks
  else .ok []

/-- The static title blocks emitted before the dispatch (lines 122-125). -/
def headerBlocks : List Block :=
  [Block.markdown "# Gangotri Glacier Monitoring Dashboard",
   Block.markdown "### Multi-Modal Remote Sensing Analysis (2000-2023)",
   Block.markdown "---"]

/-- The static sidebar blocks (lines 128-146). -/
def sidebarBlocks : List Block :=
  [Block.image "https://images.unsplash.com/photo-1506905925346-21bda4d32df4",
   Block.markdown "Navigation",
   Block.markdown "---",
   Block.markdown "Study Area: Gangotri Glacier, 30.92N 79.08E"]

/-- The static footer blocks (lines 981-991). -/
def footerBlocks : List Block :=
  [Block.markdown "---",
   Block.markdown "Gangotri Glacier Monitoring Dashboard | IEEE 2025"]

/-- One rendering pass of the whole script for a given page selection,
modality selection and dataset mapping: title, sidebar, page body, footer,
in source order.  An uncaught exception in the body aborts the run. -/
def render (page : String) (m : Modality) (d : DatasetMapping) :
    Except String (List Block) :=
  match renderPageBody page m d with
  | .error e => .error e
  | .ok body => .ok (headerBlocks ++ sidebarBlocks ++ body ++ footerBlocks)

/-! ### Loader lemmas -/

/-- What one load attempt contributes to a lookup, as an Option. -/
def loadedAt (fs : FileSystem) (path : String) : Option DataFrame :=
  match fs path with
  | .table df => some df
  | _ => none

/-- Characterization of the loader output: the entry under each key is
exactly what its own fixed path yields, and no other key is ever present. -/
theorem lookup_load_model_data (fs : FileSystem) (k : String) :
    (load_model_data fs).lookup k =
      if k = "DEM" then loadedAt fs demPath
      else if k = "Sentinel1" then loadedAt fs sentinel1Path
      else if k = "Sentinel2" then loadedAt fs sentinel2Path
      else none := by
  by_cases hA : k = "DEM"
  · subst hA
    cases h1 : fs demPath <;> cases h2 : fs sentinel1Path <;> cases h3 : fs sentinel2Path <;>
      simp [load_model_data, tryLoad, DatasetMapping.lookup, loadedAt, h1, h2, h3, List.lookup]
  · by_cases hB : k = "Sentinel1"
    · subst hB
      cases h1 : fs demPath <;> cases h2 : fs sentinel1Path <;> cases h3 : fs sentinel2Path <;>
        simp [load_model_data, tryLoad, DatasetMapping.lookup, loadedAt, h1, h2, h3, List.lookup]
    · by_cases hC : k = "Sentinel2"
      · subst hC
        cases h1 : fs demPath <;> cases h2 : fs sentinel1Path <;> cases h3 : fs sentinel2Path <;>
          simp [load_model_data, tryLoad, DatasetMapping.lookup, loadedAt, h1, h2, h3, List.lookup]
      · have hA2 : (k == "DEM") = false := beq_eq_false_iff_ne.mpr hA
        have hB2 : (k == "Sentinel1") = false := beq_eq_false_iff_ne.mpr hB
        have hC2 : (k == "Sentinel2") = false := beq_eq_false_iff_ne.mpr hC
        cases h1 : fs demPath <;> cases h2 : fs sentinel1Path <;> cases h3 : fs sentinel2Path <;>
          simp [load_model_data, tryLoad, DatasetMapping.lookup, loadedAt, h1, h2, h3,
            List.lookup, hA, hB, hC, hA2, hB2, hC2]

/-! ### Test fixtures -/

/-- A filesystem with no files at all. -/
def fsEmpty : FileSystem := fun _ => .absent

/-- A small concrete table. -/
def dfSmall : DataFrame := ⟨["elev_change"], [[1]]⟩

/-- A filesystem holding only the DEM file. -/
def fsDemOnly : FileSystem := fun p => if p = demPath then .table dfSmall else .absent

/-! ### Claim theorems: loader -/

/-- C1: `load()` never raises for any filesystem state (it is a total
function of that state); for each of the three dataset names an absent
file or an unparseable file simply leaves the key out of the returned
mapping, and the entry under each name depends only on that name's own
file, so neither condition affects the loading of the other datasets. -/
theorem loader_skips_missing_and_corrupt_independently (fs : FileSystem) :
    ((fs demPath = .absent ∨ fs demPath = .unparseable) →
      (load_model_data fs).lookup "DEM" = none)
    ∧ ((fs sentinel1Path = .absent ∨ fs sentinel1Path = .unparseable) →
      (load_model_data fs).lookup "Sentinel1" = none)
    ∧ ((fs sentinel2Path = .absent ∨ fs sentinel2Path = .unparseable) →
      (load_model_data fs).lookup "Sentinel2" = none)
    ∧ (∀ fs2 : FileSystem, fs2 demPath = fs demPath →
      (load_model_data fs2).lookup "DEM" = (load_model_data fs).lookup "DEM")
    ∧ (∀ fs2 : FileSystem, fs2 sentinel1Path = fs sentinel1Path →
      (load_model_data fs2).lookup "Sentinel1" = (load_model_data fs).lookup "Sentinel1")
    ∧ (∀ fs2 : FileSystem, fs2 sentinel2Path = fs sentinel2Path →
      (load_model_data fs2).lookup "Sentinel2" = (load_model_data fs).lookup "Sentinel2") := by
  refine ⟨fun h => ?_, fun h => ?_, fun h => ?_,
    fun fs2 h => ?_, fun fs2 h => ?_, fun fs2 h => ?_⟩ <;>
    simp only [lookup_load_model_data, loadedAt] <;>
    first
      | (rcases h with h | h <;> simp [h])
      | simp [h]

/-- Witness for C1 at a concrete filesystem: with no files on disk the
mapping omits the DEM key. -/
theorem loader_skips_missing_witness :
    (load_model_data fsEmpty).lookup "DEM" = none :=
  (loader_skips_missing_and_corrupt_independently fsEmpty).1 (Or.inl rfl)

/-- C9: every key of the loader output is one of the three fixed names, and
a present key was loaded from its one fixed conventional path. -/
theorem loader_keys_fixed (fs : FileSystem) (k : String) (df : DataFrame)
    (h : (load_model_data fs).lookup k = some df) :
    (k = "DEM" ∧ fs demPath = .table df)
    ∨ (k = "Sentinel1" ∧ fs sentinel1Path = .table df)
    ∨ (k = "Sentinel2" ∧ fs sentinel2Path = .table df) := by
  rw [lookup_load_model_data] at h
  split_ifs at h with h1 h2 h3
  · refine Or.inl ⟨h1, ?_⟩
    cases hd : fs demPath <;> simp_all [loadedAt]
  · refine Or.inr (Or.inl ⟨h2, ?_⟩)
    cases hd : fs sentinel1Path <;> simp_all [loadedAt]
  · refine Or.inr (Or.inr ⟨h3, ?_⟩)
    cases hd : fs sentinel2Path <;> simp_all [loadedAt]

/-- Witness for C9 at a concrete filesystem holding only the DEM file. -/
theorem loader_keys_fixed_witness :
    ("DEM" = "DEM" ∧ fsDemOnly demPath = .table dfSmall)
    ∨ ("DEM" = "Sentinel1" ∧ fsDemOnly sentinel1Path = .table dfSmall)
    ∨ ("DEM" = "Sentinel2" ∧ fsDemOnly sentinel2Path = .table dfSmall) :=
  loader_keys_fixed fsDemOnly "DEM" dfSmall (by decide)

/-! ### Claim theorems: page dispatch -/

/-- C8: rendering is deterministic — the renderer is a pure function of the
request and the mapping, with no hidden mutable state, so two calls with
the same `(request, mapping)` pair yield identical output block
sequences. -/
theorem render_deterministic (page : String) (m : Modality) (d : DatasetMapping) :
    render page m d = render page m d := rfl

/-- C6: the Overview, Satellite Imagery, Machine Learning, Results &
Insights and About pages never consult the dataset mapping — rendering any
of them under two arbitrary mappings produces identical output block
sequences. -/
theorem static_pages_data_independent (p : String)
    (hp : p ∈ ["Overview", "Satellite Imagery", "Machine Learning",
               "Results & Insights", "About"])
    (m : Modality) (d1 d2 : DatasetMapping) :
    render p m d1 = render p m d2 := by
  simp only [List.mem_cons, List.not_mem_nil, or_false] at hp
  rcases hp with rfl | rfl | rfl | rfl | rfl <;> rfl

/-- Witness for C6: Overview under the empty mapping and under a mapping
holding a DEM table renders identically. -/
theorem static_pages_data_independent_witness :
    render "Overview" .dem [] = render "Overview" .dem [("DEM", dfSmall)] :=
  static_pages_data_independent "Overview" (by simp) .dem [] [("DEM", dfSmall)]

/-- C10: a page identifier outside the fixed six-element enumeration falls
through the if/elif chain, which has no else branch: rendering does not
raise and produces only the static header, sidebar and footer blocks. -/
theorem unknown_page_static_chrome (p : String) (m : Modality) (d : DatasetMapping)
    (hp : p ∉ pageNames) :
    render p m d = .ok (headerBlocks ++ sidebarBlocks ++ footerBlocks) := by
  simp only [pageNames, List.mem_cons, List.not_mem_nil, or_false, not_or] at hp
  obtain ⟨h1, h2, h3, h4, h5, h6⟩ := hp
  simp [render, renderPageBody, h1, h2, h3, h4, h5, h6]

/-- Witness for C10 at a concrete unknown page name. -/
theorem unknown_page_static_chrome_witness :
    render "Settings" .dem [] = .ok (headerBlocks ++ sidebarBlocks ++ footerBlocks) :=
  unknown_page_static_chrome "Settings" .dem [] (by decide)

/-! ### Claim theorems: Data Analysis, DEM modality -/

/-- C5: when the mapping lacks the DEM key, or maps it to a zero-row table,
the Data Analysis page with the DEM modality renders without raising,
with exactly one informational placeholder block and zero chart blocks
(empty is treated identically to missing). -/
theorem dem_absent_or_empty_placeholder (d : DatasetMapping)
    (h : d.lookup "DEM" = none ∨ ∃ df, d.lookup "DEM" = some df ∧ df.len = 0) :
    ∃ bs, renderDataAnalysis .dem d = .ok bs
      ∧ countInfos bs = 1 ∧ countCharts bs = 0 := by
  refine ⟨_, rfl, ?_⟩
  rcases h with h | ⟨df, h, hlen⟩
  · simp [demBranch, h, countInfos, countCharts, Block.isInfo, Block.isChart]
  · simp [demBranch, h, hlen, countInfos, countCharts, Block.isInfo, Block.isChart]

/-- Witness for C5 at the empty mapping. -/
theorem dem_absent_placeholder_witness :
    ∃ bs, renderDataAnalysis .dem [] = .ok bs
      ∧ countInfos bs = 1 ∧ countCharts bs = 0 :=
  dem_absent_or_empty_placeholder [] (Or.inl rfl)

/-- C4: for a present, non-empty DEM table with an `elev_change` column, the
DEM modality emits exactly one chart block — the 50-bin histogram of the
`elev_change` column — plus a Metric block for the row count, and Metric
blocks for the distinct-value count of `class` and the mean of `slope`,
each present exactly when its column is present and independently omitted
when it is absent. -/
theorem dem_histogram_and_metrics (d : DatasetMapping) (df : DataFrame)
    (h : d.lookup "DEM" = some df) (hlen : 0 < df.len)
    (helev : df.hasCol "elev_change" = true) :
    ∃ bs, renderDataAnalysis .dem d = .ok bs ∧
      countCharts bs = 1 ∧
      Block.chart (.histogram "elev_change" (df.colValues "elev_change") 50
        "Elevation Change Distribution (2000-2011)") ∈ bs ∧
      Block.metric "Total Samples" (.count df.len) ∈ bs ∧
      (df.hasCol "class" = true →
        Block.metric "Classes Identified" (.count (nunique (df.colValues "class"))) ∈ bs) ∧
      (df.hasCol "class" = false →
        ∀ v, Block.metric "Classes Identified" v ∉ bs) ∧
      (df.hasCol "slope" = true →
        Block.metric "Avg Slope" (.num (listMean (df.colValues "slope"))) ∈ bs) ∧
      (df.hasCol "slope" = false →
        ∀ v, Block.metric "Avg Slope" v ∉ bs) := by
  refine ⟨_, rfl, ?_⟩
  cases hc : df.hasCol "class" <;> cases hs : df.hasCol "slope" <;>
    simp [demBranch, h, hlen, helev, hc, hs, countCharts, Block.isChart]

/-- Witness for C4 at a concrete mapping whose DEM table has all three
columns over one row. -/
theorem dem_histogram_and_metrics_witness :
    ∃ bs,
      renderDataAnalysis .dem [("DEM", ⟨["elev_change", "class", "slope"], [[1, 2, 3]]⟩)]
        = .ok bs ∧
      countCharts bs = 1 ∧
      Block.chart (.histogram "elev_change"
        (DataFrame.colValues ⟨["elev_change", "class", "slope"], [[1, 2, 3]]⟩ "elev_change") 50
        "Elevation Change Distribution (2000-2011)") ∈ bs ∧
      Block.metric "Total Samples"
        (.count (DataFrame.len ⟨["elev_change", "class", "slope"], [[1, 2, 3]]⟩)) ∈ bs ∧
      (DataFrame.hasCol ⟨["elev_change", "class", "slope"], [[1, 2, 3]]⟩ "class" = true →
        Block.metric "Classes Identified"
          (.count (nunique (DataFrame.colValues
            ⟨["elev_change", "class", "slope"], [[1, 2, 3]]⟩ "class"))) ∈ bs) ∧
      (DataFrame.hasCol ⟨["elev_change", "class", "slope"], [[1, 2, 3]]⟩ "class" = false →
        ∀ v, Block.metric "Classes Identified" v ∉ bs) ∧
      (DataFrame.hasCol ⟨["elev_change", "class", "slope"], [[1, 2, 3]]⟩ "slope" = true →
        Block.metric "Avg Slope"
          (.num (listMean (DataFrame.colValues
            ⟨["elev_change", "class", "slope"], [[1, 2, 3]]⟩ "slope"))) ∈ bs) ∧
      (DataFrame.hasCol ⟨["elev_change", "class", "slope"], [[1, 2, 3]]⟩ "slope" = false →
        ∀ v, Block.metric "Avg Slope" v ∉ bs) :=
  dem_histogram_and_metrics [("DEM", ⟨["elev_change", "class", "slope"], [[1, 2, 3]]⟩)]
    ⟨["elev_change", "class", "slope"], [[1, 2, 3]]⟩ (by decide) (by decide) (by decide)

/-! ### Claim theorems: Data Analysis, Sentinel-1 modality -/

/-- C3: for a present, non-empty Sentinel1 table lacking `VV_1` and `VV_2`
but having a first and a second column, the Sentinel-1 modality renders
without failing and emits a scatter chart block whose x-axis is the first
column and whose y-axis is the second column (positional fallback). -/
theorem sentinel1_positional_fallback (d : DatasetMapping) (df : DataFrame)
    (h : d.lookup "Sentinel1" = some df) (hlen : 0 < df.len)
    (hv1 : df.hasCol "VV_1" = false) (hv2 : df.hasCol "VV_2" = false)
    (c0 c1 : String) (h0 : df.cols[0]? = some c0) (h1 : df.cols[1]? = some c1) :
    ∃ bs, renderDataAnalysis .sentinel1 d = .ok bs ∧
      Block.chart (.scatter c0 c1
        (if df.hasCol "class" then some "class" else none)
        "Winter vs Summer Backscatter") ∈ bs := by
  cases hc : df.hasCol "class" <;>
    simp [renderDataAnalysis, sentinel1Branch, sentinel1Chart, colAt,
      h, hlen, hv1, hv2, h0, h1, hc]

/-- Witness for C3 at a concrete two-column Sentinel1 table without the
named VV columns. -/
theorem sentinel1_positional_fallback_witness :
    ∃ bs,
      renderDataAnalysis .sentinel1 [("Sentinel1", ⟨["A", "B"], [[1, 2]]⟩)] = .ok bs ∧
      Block.chart (.scatter "A" "B"
        (if DataFrame.hasCol ⟨["A", "B"], [[1, 2]]⟩ "class" then some "class" else none)
        "Winter vs Summer Backscatter") ∈ bs :=
  sentinel1_positional_fallback [("Sentinel1", ⟨["A", "B"], [[1, 2]]⟩)] ⟨["A", "B"], [[1, 2]]⟩
    (by decide) (by decide) (by decide) (by decide) "A" "B" (by decide) (by decide)

/-- Decidable equality of rendering outcomes, for evaluating the renderer
on concrete inputs. -/
instance instDecEqExcept {ε α : Type} [DecidableEq ε] [DecidableEq α] :
    DecidableEq (Except ε α) := fun a b =>
  match a, b with
  | .error e1, .error e2 =>
    if h : e1 = e2 then isTrue (by rw [h])
    else isFalse (by intro hh; cases hh; exact h rfl)
  | .error _, .ok _ => isFalse (by intro hh; cases hh)
  | .ok _, .error _ => isFalse (by intro hh; cases hh)
  | .ok a1, .ok a2 =>
    if h : a1 = a2 then isTrue (by rw [h])
    else isFalse (by intro hh; cases hh; exact h rfl)

/-! ### Claim theorems: graceful-degradation policy (C2) -/

/-- C2 fails on the code: with a present, non-empty one-column `Sentinel1`
table lacking `VV_2`, the positional y-axis fallback of the Sentinel-1
scatter evaluates `data['Sentinel1'].columns[1]`, which raises IndexError
and aborts the whole page run instead of degrading to a placeholder
block.  This theorem evaluates the renderer at that failing input. -/
theorem sentinel1_single_column_raises :
    render "Data Analysis" .sentinel1 [("Sentinel1", ⟨["A"], [[1]]⟩)]
      = .error "IndexError: index out of bounds for df.columns" := by
  decide

/-! ### Claim theorems: modality dispatch (C7) -/

/-- The Data Analysis renderer consults the dataset mapping under a given
modality: some two mappings make it render different block sequences. -/
def consultsMapping (m : Modality) : Prop :=
  ∃ d1 d2 : DatasetMapping, renderDataAnalysis m d1 ≠ renderDataAnalysis m d2

/-- C7 as stated is false: the Landsat-8 Thermal branch of the Data
Analysis page is built entirely from literals and never consults the
dataset mapping, so its rendering is the same for every mapping. -/
theorem landsat8_never_consults_mapping : ¬ consultsMapping Modality.landsat8 := by
  rintro ⟨d1, d2, h⟩
  exact h rfl

/-- C7 amended: for the DEM, Sentinel-1 and Sentinel-2 modalities the
renderer looks up the corresponding dataset by name — its output is a
function of that one entry of the mapping and genuinely depends on it —
while the Landsat-8 Thermal branch emits a fixed block sequence without
consulting the mapping. -/
theorem data_analysis_lookup_by_name :
    (∀ d1 d2 : DatasetMapping, d1.lookup "DEM" = d2.lookup "DEM" →
      renderDataAnalysis .dem d1 = renderDataAnalysis .dem d2)
    ∧ consultsMapping .dem
    ∧ (∀ d1 d2 : DatasetMapping, d1.lookup "Sentinel1" = d2.lookup "Sentinel1" →
      renderDataAnalysis .sentinel1 d1 = renderDataAnalysis .sentinel1 d2)
    ∧ consultsMapping .sentinel1
    ∧ (∀ d1 d2 : DatasetMapping, d1.lookup "Sentinel2" = d2.lookup "Sentinel2" →
      renderDataAnalysis .sentinel2 d1 = renderDataAnalysis .sentinel2 d2)
    ∧ consultsMapping .sentinel2
    ∧ (∀ d : DatasetMapping, renderDataAnalysis .landsat8 d
        = .ok (Block.markdown "## Multi-Modal Data Analysis" :: landsat8Branch)) := by
  refine ⟨fun d1 d2 h => ?_, ⟨[], [("DEM", dfSmall)], by decide⟩,
    fun d1 d2 h => ?_, ⟨[], [("Sentinel1", dfSmall)], by decide⟩,
    fun d1 d2 h => ?_, ⟨[], [("Sentinel2", dfSmall)], by decide⟩,
    fun d => rfl⟩
  · simp [renderDataAnalysis, demBranch, h]
  · simp [renderDataAnalysis, sentinel1Branch, h]
  · simp [renderDataAnalysis, sentinel2Branch, h]

/-- Witness for the amended C7: the DEM rendering ignores an unrelated
Sentinel1 entry, because the DEM entry is what it looks up. -/
theorem data_analysis_lookup_by_name_witness :
    renderDataAnalysis .dem [("Sentinel1", dfSmall)] = renderDataAnalysis .dem [] :=
  data_analysis_lookup_by_name.1 [("Sentinel1", dfSmall)] [] (by decide)

end Glacier
